import Mathlib

/-!
Verification of the alert-feed client of the Drought_Monitery repository.

The development shallowly embeds the alert-feed component
(src/frontend/src/components/AlertsPanel.jsx) and the welcome-card risk
classifier (WelcomeCard.jsx) in Lean:

* pure helpers (the feed sort comparator, severity ranking, the risk-level
  classifier, haversine distance) become Lean functions;
* the stateful React component becomes an explicit state record
  (PanelState) with one step function per event handler or effect
  (fetchSuccess, fetchFailure, markAsRead);
* machine numbers: alert timestamps are modelled as integers
  (millisecond epoch values, which is what a JavaScript Date difference
  produces), risk scores as rationals, and geographic coordinates as
  reals (the haversine code is trigonometric);
* the browser side effects that matter to the claims (localStorage writes
  and outgoing HTTP requests of markAsRead) are made explicit in an
  Effects record.
-/

namespace DroughtMonitery

/-- Models JavaScript String.prototype.toLowerCase for the ASCII severity
and filter strings the component compares (written with structural list
recursion so that concrete instances evaluate inside the kernel). -/
def toLowerCase (s : String) : String := String.mk (s.data.map Char.toLower)

/-- An alert record as consumed by the web client.  Fields mirror the JSON
fields that AlertsPanel.jsx reads: id, title, message, severity_level
(possibly absent), created_at (modelled as a millisecond timestamp, which
is the value a JavaScript Date difference works with) and the optional
recommended_action. -/
structure Alert where
  id : Nat
  title : String
  message : String
  severity_level : Option String
  created_at : Int
  recommended_action : Option String := none
deriving Repr, DecidableEq

/-- Embeds the severity lookup of the sort comparator in filterAlerts:
severityOrder = critical 0, high 1, medium 2, low 3, with
severityOrder(a.severity_level?.toLowerCase()) ?? 4, so a missing or
unrecognized severity gets rank 4. -/
def severityRank (s : Option String) : Int :=
  match s with
  | none => 4
  | some str =>
    let l := toLowerCase str
    if l = "critical" then 0
    else if l = "high" then 1
    else if l = "medium" then 2
    else if l = "low" then 3
    else 4

/-- Embeds the comparator passed to filtered.sort in filterAlerts: if the
severity ranks differ it returns severityA - severityB, otherwise
Date(b.created_at) - Date(a.created_at). -/
def cmpAlerts (a b : Alert) : Int :=
  let severityA := severityRank a.severity_level
  let severityB := severityRank b.severity_level
  if severityA ≠ severityB then severityA - severityB
  else b.created_at - a.created_at

/-- Comparator result viewed as a binary "sorts no later than" relation,
the relation a stable comparison sort orders by. -/
def alertLe (a b : Alert) : Bool := cmpAlerts a b ≤ 0

/-- Embeds the severity filter of filterAlerts:
alert.severity_level?.toLowerCase() === filter.toLowerCase() (an absent
severity_level compares unequal to every filter string). -/
def matchesFilter (filter : String) (a : Alert) : Bool :=
  match a.severity_level with
  | none => false
  | some s => toLowerCase s == toLowerCase filter

/-- Embeds filterAlerts of AlertsPanel.jsx: keep every alert when the
filter is "all", otherwise keep the matching severities, then sort with
the comparator.  JavaScript Array.prototype.sort with a consistent
comparator is a stable comparison sort, modelled here by insertion
sort (which is stable and orders by the same relation). -/
def filterAlerts (filter : String) (alerts : List Alert) : List Alert :=
  let filtered := if filter ≠ "all" then alerts.filter (matchesFilter filter) else alerts
  filtered.insertionSort (fun a b => alertLe a b = true)

/-- Embeds isAlertRead: the localStorage readAlerts array (modelled as the
list of read alert ids) includes the given id. -/
def isAlertRead (readAlerts : List Nat) (alertId : Nat) : Bool :=
  readAlerts.contains alertId

/-- Embeds the unread-count effect of AlertsPanel.jsx:
alerts.filter(alert => !isAlertRead(alert.id)).length. -/
def countUnread (alerts : List Alert) (readAlerts : List Nat) : Nat :=
  (alerts.filter (fun a => !(isAlertRead readAlerts a.id))).length

/-- The component state of AlertsPanel that the claims are about: the
fetched alerts, the localStorage readAlerts array, the unreadCount state
variable (kept as an integer so that the non-negativity clamp of
markAsRead is visible), and the error and loading flags. -/
structure PanelState where
  alerts : List Alert
  readAlerts : List Nat
  unreadCount : Int
  error : Option String
  loading : Bool
deriving Repr, DecidableEq

/-- The initial component state: useState([]) for alerts, empty
localStorage, useState(0) for unreadCount, useState(null) for error,
useState(false) for loading. -/
def initialState : PanelState :=
  { alerts := [], readAlerts := [], unreadCount := 0, error := none, loading := false }

/-- The error message set by the catch branch of fetchAlerts. -/
def errorMessage : String := "Failed to load alerts. Please try again."

/-- Embeds a successful fetchAlerts call followed by the React effects it
triggers: setError(null), setAlerts(results), the unread-count effect
recomputation, setLoading(false).  The readAlerts localStorage entry is
not touched anywhere on this path. -/
def fetchSuccess (s : PanelState) (results : List Alert) : PanelState :=
  { alerts := results
    readAlerts := s.readAlerts
    unreadCount := (countUnread results s.readAlerts : Int)
    error := none
    loading := false }

/-- Embeds a failed fetchAlerts call: the catch branch sets the error
message and the finally branch clears loading; alerts (hence the
unread-count effect) and the readAlerts storage are untouched. -/
def fetchFailure (s : PanelState) : PanelState :=
  { s with error := some errorMessage, loading := false }

/-- Embeds markAsRead of AlertsPanel.jsx: if readAlerts does not already
include the id, push it, store it back, and decrement unreadCount clamped
at zero with Math.max(0, prev - 1); otherwise do nothing. -/
def markAsRead (s : PanelState) (alertId : Nat) : PanelState :=
  if s.readAlerts.contains alertId then s
  else
    { s with
      readAlerts := s.readAlerts ++ [alertId]
      unreadCount := max 0 (s.unreadCount - 1) }

/-- Browser side effects of one client operation: localStorage.setItem
calls (key and stored array) and HTTP requests issued (request URLs). -/
structure Effects where
  storageWrites : List (String × List Nat)
  httpRequests : List String
deriving Repr, DecidableEq

/-- Side-effect trace of markAsRead, read off the source: on a new id it
performs exactly one localStorage.setItem("readAlerts", ...) and issues no
HTTP request at all (there is no axios call in markAsRead); on an
already-read id it performs neither. -/
def markAsReadEffects (readAlerts : List Nat) (alertId : Nat) : Effects :=
  if readAlerts.contains alertId then { storageWrites := [], httpRequests := [] }
  else
    { storageWrites := [("readAlerts", readAlerts ++ [alertId])]
      httpRequests := [] }

/-- Request URL built by fetchAlerts: the base feed URL plus optional
lat and lon query parameters (coordinates kept as strings, matching the
template-literal interpolation). -/
def fetchAlertsUrl (userLocation : Option (String × String)) : String :=
  match userLocation with
  | none => "/api/v1/alerts/"
  | some (lat, lng) => "/api/v1/alerts/" ++ "?lat=" ++ lat ++ "&lon=" ++ lng

/-- Side-effect trace of fetchAlerts: one GET request to the feed URL and
no localStorage write (fetchAlerts never touches readAlerts). -/
def fetchAlertsEffects (userLocation : Option (String × String)) : Effects :=
  { storageWrites := [], httpRequests := [fetchAlertsUrl userLocation] }

/-- Operations the claims interleave: a fetch that succeeds with a result
list, a fetch that fails, and a click that marks one alert read. -/
inductive PanelOp where
  | fetchOk (results : List Alert)
  | fetchErr
  | markRead (alertId : Nat)
deriving Repr, DecidableEq

/-- Transition function of the panel state machine. -/
def step (s : PanelState) (op : PanelOp) : PanelState :=
  match op with
  | .fetchOk results => fetchSuccess s results
  | .fetchErr => fetchFailure s
  | .markRead i => markAsRead s i

/-- Runs a sequence of operations from a state. -/
def run (s : PanelState) (ops : List PanelOp) : PanelState :=
  ops.foldl step s

/-- Checks whether an operation is a feed fetch (successful or failed). -/
def PanelOp.isFetch : PanelOp → Bool
  | .fetchOk _ => true
  | .fetchErr => true
  | .markRead _ => false

/-- Preconditions the UI establishes before an operation runs: markAsRead
is only invoked from the onClick handler of a rendered alert card, so its
id is the id of one of the fetched alerts; a fetch delivers a feed whose
alert ids are distinct (alert ids are unique by construction). -/
def ValidOp (s : PanelState) (op : PanelOp) : Prop :=
  match op with
  | .fetchOk results => (results.map Alert.id).Nodup
  | .fetchErr => True
  | .markRead i => i ∈ s.alerts.map Alert.id

/-- Validity of a whole operation sequence from a given state. -/
def ValidSeq : PanelState → List PanelOp → Prop
  | _, [] => True
  | s, op :: ops => ValidOp s op ∧ ValidSeq (step s op) ops

/-- The consistency invariant of claim C3: the alert ids on display are
distinct and the displayed unreadCount equals the recomputed number of
fetched alerts with no read state. -/
def Inv (s : PanelState) : Prop :=
  (s.alerts.map Alert.id).Nodup ∧
  s.unreadCount = (countUnread s.alerts s.readAlerts : Int)

/-- Render condition of the error banner (AlertsPanel.jsx line 221):
it is shown exactly when the error state is set. -/
def showsErrorBanner (s : PanelState) : Bool := s.error.isSome

/-- Render condition of the "No alerts found" empty state (AlertsPanel.jsx
line 247): not loading, the filtered list is empty, and no error is set. -/
def showsNoAlertsMessage (filter : String) (s : PanelState) : Bool :=
  !s.loading && (filterAlerts filter s.alerts).isEmpty && !s.error.isSome

/-- Embeds getRiskColor of WelcomeCard (src/unnamed/part_003): the
JavaScript guard, with a numeric risk score, is true exactly for a missing
value or the score 0, and the threshold chain tests risk >= 8, >= 6,
>= 4. -/
def getRiskColor (risk : Option ℚ) : String :=
  match risk with
  | none => "text-gray-500"
  | some v =>
    if v = 0 then "text-gray-500"
    else if 8 ≤ v then "text-red-600"
    else if 6 ≤ v then "text-orange-500"
    else if 4 ≤ v then "text-yellow-500"
    else "text-green-500"

/-- Embeds getRiskLevel of WelcomeCard (src/unnamed/part_003): the
JavaScript guard, with a numeric risk score, is true exactly for a
missing value or the score 0 (both falsy), and the threshold chain tests
risk >= 8, >= 6, >= 4, else Low. -/
def getRiskLevel (risk : Option ℚ) : String :=
  match risk with
  | none => "Unknown"
  | some v =>
    if v = 0 then "Unknown"
    else if 8 ≤ v then "Very High"
    else if 6 ≤ v then "High"
    else if 4 ≤ v then "Moderate"
    else "Low"

/-- A severity string that the sort comparator of the feed recognizes:
after lowercasing it is one of critical, high, medium, low. -/
def RecognizedSeverity (s : Option String) : Prop :=
  Option.map toLowerCase s = some "critical" ∨
  Option.map toLowerCase s = some "high" ∨
  Option.map toLowerCase s = some "medium" ∨
  Option.map toLowerCase s = some "low"

instance (s : Option String) : Decidable (RecognizedSeverity s) := by
  unfold RecognizedSeverity
  infer_instance

/-- Models JavaScript Math.atan2(y, x): the angle of the point (x, y),
split into the standard branches. calculateDistance only reaches the
branch with a positive x argument. -/
noncomputable def atan2 (y x : ℝ) : ℝ :=
  if 0 < x then Real.arctan (y / x)
  else if x < 0 then
    (if 0 ≤ y then Real.arctan (y / x) + Real.pi else Real.arctan (y / x) - Real.pi)
  else if 0 < y then Real.pi / 2
  else if y < 0 then -(Real.pi / 2)
  else 0

/-- Embeds calculateDistance of AlertsPanel.jsx: the haversine great-circle
distance with Earth radius R = 6371 km.  This is the numeric value R * c
that the component computes; the final .toFixed(1) call only formats that
number for display. -/
noncomputable def calculateDistance (lat1 lon1 lat2 lon2 : ℝ) : ℝ :=
  let R : ℝ := 6371
  let dLat := (lat2 - lat1) * Real.pi / 180
  let dLon := (lon2 - lon1) * Real.pi / 180
  let a := Real.sin (dLat / 2) * Real.sin (dLat / 2) +
    Real.cos (lat1 * Real.pi / 180) * Real.cos (lat2 * Real.pi / 180) *
    Real.sin (dLon / 2) * Real.sin (dLon / 2)
  let c := 2 * atan2 (Real.sqrt a) (Real.sqrt (1 - a))
  R * c

/-- Modelled from the spec: the geo-relevance decision of the backend
relevance filter is not part of the visible source; the spec states a
subscriber is relevant if the haversine distance to the alert source point
is at most the alert's configured relevance radius. -/
def geoRelevantByRadius (distance radius : ℝ) : Prop := distance ≤ radius

/-- Sample alert with critical severity used by concrete witnesses. -/
def sampleCritical : Alert :=
  { id := 1, title := "Severe drought warning", message := "m1",
    severity_level := some "critical", created_at := 200 }

/-- Sample alert with low severity used by concrete witnesses. -/
def sampleLow : Alert :=
  { id := 2, title := "Rainfall update", message := "m2",
    severity_level := some "low", created_at := 100 }

/-- Alerts with equal severity and equal created-at but different ids:
the tie case of the feed comparator. -/
def tieAlertA : Alert :=
  { id := 1, title := "A", message := "m", severity_level := some "high", created_at := 100 }

/-- Second alert of the comparator tie pair, distinct only in id and title. -/
def tieAlertB : Alert :=
  { id := 2, title := "B", message := "m", severity_level := some "high", created_at := 100 }

instance (s : PanelState) (op : PanelOp) : Decidable (ValidOp s op) := by
  unfold ValidOp
  cases op <;> infer_instance

instance instDecidableValidSeq (s : PanelState) (ops : List PanelOp) :
    Decidable (ValidSeq s ops) :=
  match ops with
  | [] => isTrue trivial
  | op :: rest =>
    have : Decidable (ValidSeq (step s op) rest) := instDecidableValidSeq (step s op) rest
    inferInstanceAs (Decidable (_ ∧ _))

instance (s : PanelState) : Decidable (Inv s) := by
  unfold Inv
  infer_instance

end DroughtMonitery

namespace DroughtMonitery

/-- Lemma: every severity rank produced by the comparator lookup is at
most 4 (the fallback rank). -/
theorem severityRank_le_four (s : Option String) : severityRank s ≤ 4 := by
  unfold severityRank
  cases s with
  | none => norm_num
  | some str =>
    simp only []
    split_ifs <;> norm_num

/-- Lemma: the comparator relation is total, as required of a consistent
JavaScript sort comparator. -/
theorem alertLe_total (a b : Alert) : alertLe a b = true ∨ alertLe b a = true := by
  simp only [alertLe, cmpAlerts, decide_eq_true_eq]
  by_cases h : severityRank a.severity_level = severityRank b.severity_level
  · simp [h]
    omega
  · simp [h, Ne.symm h]
    omega

/-- Lemma: the comparator relation is transitive (lexicographic on
severity rank, then recency). -/
theorem alertLe_trans (a b c : Alert) (hab : alertLe a b = true) (hbc : alertLe b c = true) :
    alertLe a c = true := by
  simp only [alertLe, cmpAlerts, decide_eq_true_eq] at hab hbc ⊢
  by_cases h1 : severityRank a.severity_level = severityRank b.severity_level <;>
    by_cases h2 : severityRank b.severity_level = severityRank c.severity_level <;>
      simp [h1, h2] at hab hbc <;>
        by_cases h3 : severityRank a.severity_level = severityRank c.severity_level <;>
          simp [h3] <;> omega

/-- Lemma: the list produced by filterAlerts is sorted with respect to the
comparator relation. -/
theorem filterAlerts_sorted (filter : String) (l : List Alert) :
    (filterAlerts filter l).Pairwise (fun a b => alertLe a b = true) := by
  unfold filterAlerts
  have ht : IsTotal Alert (fun a b => alertLe a b = true) := ⟨alertLe_total⟩
  have htr : IsTrans Alert (fun a b => alertLe a b = true) := ⟨alertLe_trans⟩
  exact List.sorted_insertionSort _ _

/-- C1 (counterexample): two distinct alerts with equal severity and equal
created-at compare equal in both directions even though their ids differ,
and the sort keeps them in whichever input order they arrive, so the
comparison does leave two distinct alerts unordered — the alert id does
not break the tie. -/
theorem feed_order_tie_not_broken_by_id :
    cmpAlerts tieAlertA tieAlertB = 0 ∧ cmpAlerts tieAlertB tieAlertA = 0 ∧
    tieAlertA.id ≠ tieAlertB.id ∧
    filterAlerts "all" [tieAlertA, tieAlertB] = [tieAlertA, tieAlertB] ∧
    filterAlerts "all" [tieAlertB, tieAlertA] = [tieAlertB, tieAlertA] := by
  decide

/-- C1 (amended): the feed comparator is a total preorder keyed on
severity rank then recency: an alert of strictly higher severity (lower
rank) sorts first; within equal severity the more recently created sorts
first; and two alerts with equal severity and equal created-at compare
equal (comparator value 0) regardless of their ids, their relative order
being left to the stable sort's input order rather than an id tie-break. -/
theorem feed_order_total_preorder (a b : Alert) :
    (cmpAlerts a b ≤ 0 ↔
      (severityRank a.severity_level < severityRank b.severity_level ∨
        (severityRank a.severity_level = severityRank b.severity_level ∧
          b.created_at ≤ a.created_at))) ∧
    (cmpAlerts a b = 0 ↔
      (severityRank a.severity_level = severityRank b.severity_level ∧
        a.created_at = b.created_at)) := by
  by_cases h : severityRank a.severity_level = severityRank b.severity_level <;>
    simp [cmpAlerts, h] <;> omega

/-- C10: an alert whose severity_level is missing or unrecognized gets
sort rank 4, and in the sorted feed no such alert ever precedes an alert
of recognized severity; among the rank-4 alerts the newest created-at
comes first. -/
theorem unrecognized_severity_sorts_last (l : List Alert) :
    (∀ s : Option String, severityRank s = 4 ↔ ¬ RecognizedSeverity s) ∧
    (filterAlerts "all" l).Pairwise (fun a b =>
      severityRank a.severity_level ≠ 4 ∨
      (severityRank b.severity_level = 4 ∧ b.created_at ≤ a.created_at)) := by
  constructor
  · intro s
    unfold severityRank RecognizedSeverity
    cases s with
    | none => simp
    | some str =>
      simp only [Option.map_some']
      split_ifs <;> simp_all
  · apply (filterAlerts_sorted "all" l).imp
    intro a b hle
    simp only [alertLe, cmpAlerts, decide_eq_true_eq] at hle
    by_cases ha : severityRank a.severity_level = 4
    · refine Or.inr ?_
      have hb := severityRank_le_four b.severity_level
      by_cases h : severityRank a.severity_level = severityRank b.severity_level
      · simp [h] at hle
        omega
      · simp [h] at hle
        omega
    · exact Or.inl ha

/-- Lemma: unread count of a cons cell, split on whether the head is
already read. -/
theorem countUnread_cons (a : Alert) (l : List Alert) (rs : List Nat) :
    countUnread (a :: l) rs = (if a.id ∈ rs then 0 else 1) + countUnread l rs := by
  simp only [countUnread, isAlertRead, List.filter_cons]
  by_cases h : a.id ∈ rs <;> simp [h, Nat.add_comm]

/-- Lemma: marking an id that occurs nowhere in the feed leaves the unread
count unchanged. -/
theorem countUnread_extend_notmem (l : List Alert) (rs : List Nat) (i : Nat)
    (h : i ∉ l.map Alert.id) :
    countUnread l (rs ++ [i]) = countUnread l rs := by
  induction l with
  | nil => rfl
  | cons a t ih =>
    simp only [List.map_cons, List.mem_cons] at h
    push_neg at h
    rw [countUnread_cons, countUnread_cons, ih h.2]
    have hm : (a.id ∈ rs ++ [i]) ↔ a.id ∈ rs := by
      simp only [List.mem_append, List.mem_singleton]
      constructor
      · rintro (hx | hx)
        · exact hx
        · exact absurd hx.symm h.1
      · exact fun hx => Or.inl hx
    simp only [hm]

/-- Lemma: a feed containing an unread alert has unread count at least
one. -/
theorem one_le_countUnread (l : List Alert) (rs : List Nat) (i : Nat)
    (hi : i ∈ l.map Alert.id) (hir : i ∉ rs) : 1 ≤ countUnread l rs := by
  induction l with
  | nil => simp at hi
  | cons a t ih =>
    rw [countUnread_cons]
    simp only [List.map_cons, List.mem_cons] at hi
    rcases hi with hi | hi
    · subst hi
      simp [hir]
    · have := ih hi
      omega

/-- Lemma: marking an unread alert that occurs (once) in the feed lowers
the recomputed unread count by exactly one. -/
theorem countUnread_extend_mem (l : List Alert) (rs : List Nat) (i : Nat)
    (hi : i ∈ l.map Alert.id) (hnd : (l.map Alert.id).Nodup) (hir : i ∉ rs) :
    countUnread l (rs ++ [i]) + 1 = countUnread l rs := by
  induction l with
  | nil => simp at hi
  | cons a t ih =>
    simp only [List.map_cons, List.mem_cons] at hi
    simp only [List.map_cons, List.nodup_cons] at hnd
    rcases hi with hi | hi
    · subst hi
      rw [countUnread_cons, countUnread_cons]
      have h1 : a.id ∈ rs ++ [a.id] := by simp
      rw [countUnread_extend_notmem t rs a.id hnd.1]
      simp [h1, hir]
      omega
    · rw [countUnread_cons, countUnread_cons, ← ih hi hnd.2]
      have hne : a.id ≠ i := by
        intro he
        rw [he] at hnd
        exact hnd.1 hi
      have hm : (a.id ∈ rs ++ [i]) ↔ a.id ∈ rs := by
        simp only [List.mem_append, List.mem_singleton]
        constructor
        · rintro (hx | hx)
          · exact hx
          · exact absurd hx hne
        · exact fun hx => Or.inl hx
      simp only [hm]
      omega

/-- Lemma: each panel operation preserves the unread-count consistency
invariant, provided the UI preconditions hold. -/
theorem step_preserves_Inv (s : PanelState) (op : PanelOp)
    (hInv : Inv s) (hv : ValidOp s op) : Inv (step s op) := by
  cases op with
  | fetchOk results => exact ⟨hv, rfl⟩
  | fetchErr => exact hInv
  | markRead i =>
    have hstep : step s (PanelOp.markRead i) = markAsRead s i := rfl
    rw [hstep, markAsRead]
    by_cases hc : s.readAlerts.contains i = true
    · rw [if_pos hc]
      exact hInv
    · have hnotin : i ∉ s.readAlerts := by simpa using hc
      have hmem : i ∈ s.alerts.map Alert.id := hv
      have h1 := countUnread_extend_mem s.alerts s.readAlerts i hmem hInv.1 hnotin
      have h2 := one_le_countUnread s.alerts s.readAlerts i hmem hnotin
      have he := hInv.2
      rw [if_neg hc]
      refine ⟨hInv.1, ?_⟩
      show max 0 (s.unreadCount - 1) = (countUnread s.alerts (s.readAlerts ++ [i]) : Int)
      omega

/-- Lemma: the invariant is preserved along any valid operation
sequence. -/
theorem run_preserves_Inv (s : PanelState) (ops : List PanelOp)
    (hInv : Inv s) (hv : ValidSeq s ops) : Inv (run s ops) := by
  induction ops generalizing s with
  | nil => exact hInv
  | cons op rest ih =>
    exact ih (step s op) (step_preserves_Inv s op hInv hv.1) hv.2

/-- C3: after any valid interleaving of fetch and mark-read operations
from a consistent state, the displayed unread count equals the recomputed
number of fetched alerts with no read state (the mark-read decrement
agrees with the recomputed filter count). -/
theorem unread_count_consistent (s : PanelState) (ops : List PanelOp)
    (hInv : Inv s) (hv : ValidSeq s ops) :
    (run s ops).unreadCount = (countUnread (run s ops).alerts (run s ops).readAlerts : Int) :=
  (run_preserves_Inv s ops hInv hv).2

/-- Witness for C3: a concrete run interleaving a fetch, reads of a
displayed alert (twice), a failed fetch, and a read of the second alert. -/
theorem unread_count_consistent_witness :
    Inv initialState ∧
    ValidSeq initialState
      [PanelOp.fetchOk [sampleCritical, sampleLow], PanelOp.markRead 1,
        PanelOp.fetchErr, PanelOp.markRead 1, PanelOp.markRead 2] ∧
    (run initialState
      [PanelOp.fetchOk [sampleCritical, sampleLow], PanelOp.markRead 1,
        PanelOp.fetchErr, PanelOp.markRead 1, PanelOp.markRead 2]).unreadCount =
      (countUnread
        (run initialState
          [PanelOp.fetchOk [sampleCritical, sampleLow], PanelOp.markRead 1,
            PanelOp.fetchErr, PanelOp.markRead 1, PanelOp.markRead 2]).alerts
        (run initialState
          [PanelOp.fetchOk [sampleCritical, sampleLow], PanelOp.markRead 1,
            PanelOp.fetchErr, PanelOp.markRead 1, PanelOp.markRead 2]).readAlerts : Int) :=
  ⟨by decide, by decide, unread_count_consistent _ _ (by decide) (by decide)⟩

/-- Lemma: an alert id is in the stored read set right after marking it
read. -/
theorem mem_markAsRead (s : PanelState) (i : Nat) :
    i ∈ (markAsRead s i).readAlerts := by
  by_cases hc : s.readAlerts.contains i = true
  · rw [markAsRead, if_pos hc]
    simpa using hc
  · rw [markAsRead, if_neg hc]
    simp

/-- Lemma: marking an alert read twice is the same as marking it once. -/
theorem markAsRead_fixed (s : PanelState) (i : Nat) :
    markAsRead (markAsRead s i) i = markAsRead s i := by
  have hmem : (markAsRead s i).readAlerts.contains i = true := by
    simpa using mem_markAsRead s i
  rw [markAsRead, if_pos hmem]

/-- C4: marking an alert read is idempotent — applying markAsRead N >= 1
times yields exactly the state (stored read set and unread count) of
applying it once — and one-way: the alert id is in the read set
afterwards, so no number of repeats returns it to unread. -/
theorem markAsRead_idempotent (s : PanelState) (i : Nat) (n : Nat) (hn : 1 ≤ n) :
    (fun t => markAsRead t i)^[n] s = markAsRead s i ∧
    i ∈ (markAsRead s i).readAlerts := by
  refine ⟨?_, mem_markAsRead s i⟩
  obtain ⟨m, rfl⟩ : ∃ m, n = m + 1 := ⟨n - 1, by omega⟩
  rw [Function.iterate_succ_apply]
  show (fun t => markAsRead t i)^[m] (markAsRead s i) = markAsRead s i
  exact @Function.iterate_fixed _ (fun t => markAsRead t i) (markAsRead s i)
    (markAsRead_fixed s i) m

/-- Witness for C4: marking alert 1 read three times from a freshly
fetched two-alert state equals marking it once. -/
theorem markAsRead_idempotent_witness :
    1 ≤ 3 ∧
    ((fun t => markAsRead t 1)^[3] (fetchSuccess initialState [sampleCritical, sampleLow]) =
        markAsRead (fetchSuccess initialState [sampleCritical, sampleLow]) 1 ∧
      1 ∈ (markAsRead (fetchSuccess initialState [sampleCritical, sampleLow]) 1).readAlerts) :=
  ⟨by decide,
    markAsRead_idempotent (fetchSuccess initialState [sampleCritical, sampleLow]) 1 3 (by decide)⟩

/-- C5 (counterexample): marking an unread alert read issues no HTTP
request at all — in particular the alert id is not sent to any server
mark-read endpoint — while the localStorage readAlerts entry is written,
so client-side storage is the sole record of read state. -/
theorem markAsRead_no_server_request_at_input :
    (markAsReadEffects [] 1).httpRequests = [] ∧
    (markAsReadEffects [] 1).storageWrites = [("readAlerts", [1])] := by
  decide

/-- C5 (amended): for every read set and alert id, the mark-read handler
issues no HTTP request; its only side effect is (at most) one
localStorage write of the readAlerts key, so the client-side store is the
sole, authoritative record of which alerts were read. -/
theorem markAsRead_local_only (rs : List Nat) (i : Nat) :
    (markAsReadEffects rs i).httpRequests = [] ∧
    ((markAsReadEffects rs i).storageWrites = [] ∨
      (markAsReadEffects rs i).storageWrites = [("readAlerts", rs ++ [i])]) := by
  rw [markAsReadEffects]
  by_cases hc : rs.contains i = true
  · rw [if_pos hc]
    exact ⟨rfl, Or.inl rfl⟩
  · rw [if_neg hc]
    exact ⟨rfl, Or.inr rfl⟩

/-- Lemma: a fetch operation (successful or failed) does not change the
stored read set. -/
theorem step_readAlerts_of_isFetch (s : PanelState) (op : PanelOp)
    (h : op.isFetch = true) : (step s op).readAlerts = s.readAlerts := by
  cases op with
  | fetchOk results => rfl
  | fetchErr => rfl
  | markRead i => simp [PanelOp.isFetch] at h

/-- C6: any sequence of feed fetches (successful or failed, repeated any
number of times) leaves the stored set of read alert ids unchanged, and a
fetch performs no localStorage write at all — polling marks nothing as
read. -/
theorem fetch_no_readState_side_effect (s : PanelState) (ops : List PanelOp)
    (h : ∀ op ∈ ops, op.isFetch = true) :
    (run s ops).readAlerts = s.readAlerts ∧
    ∀ loc : Option (String × String), (fetchAlertsEffects loc).storageWrites = [] := by
  refine ⟨?_, fun _ => rfl⟩
  induction ops generalizing s with
  | nil => rfl
  | cons op rest ih =>
    have h1 := step_readAlerts_of_isFetch s op (h op (by simp))
    have h2 := ih (step s op) (fun o ho => h o (by simp [ho]))
    rw [run] at h2 ⊢
    rw [List.foldl_cons, h2, h1]

/-- Witness for C6: three consecutive fetches (success, failure, success)
after one alert was marked read leave the read set unchanged. -/
theorem fetch_no_readState_side_effect_witness :
    (∀ op ∈ [PanelOp.fetchOk [sampleCritical], PanelOp.fetchErr, PanelOp.fetchOk []],
      op.isFetch = true) ∧
    (run (markAsRead (fetchSuccess initialState [sampleCritical, sampleLow]) 1)
        [PanelOp.fetchOk [sampleCritical], PanelOp.fetchErr, PanelOp.fetchOk []]).readAlerts =
      (markAsRead (fetchSuccess initialState [sampleCritical, sampleLow]) 1).readAlerts :=
  ⟨by decide,
    (fetch_no_readState_side_effect
      (markAsRead (fetchSuccess initialState [sampleCritical, sampleLow]) 1)
      [PanelOp.fetchOk [sampleCritical], PanelOp.fetchErr, PanelOp.fetchOk []] (by decide)).1⟩

/-- C7 (counterexample): when the feed fetch fails from the initial state,
the panel renders the error banner and does not render the "No alerts
found" empty state — whereas a successful fetch of an empty feed does
render it — so the web feed presents an error rather than degrading to a
"no new alerts" display. -/
theorem fetch_failure_shows_error_banner_at_input :
    showsErrorBanner (fetchFailure initialState) = true ∧
    showsNoAlertsMessage "all" (fetchFailure initialState) = false ∧
    showsNoAlertsMessage "all" (fetchSuccess initialState []) = true := by
  decide

/-- C7 (amended): on any fetch failure the panel shows the error banner
("Failed to load alerts. Please try again.", with a retry action) instead
of the no-alerts empty state; the failure state remains internally
distinguishable from a genuinely empty feed because the error field is
set on failure and cleared on success. -/
theorem fetch_failure_error_state (s : PanelState) (results : List Alert) (filter : String) :
    showsErrorBanner (fetchFailure s) = true ∧
    showsNoAlertsMessage filter (fetchFailure s) = false ∧
    (fetchFailure s).error = some errorMessage ∧
    (fetchSuccess s results).error = none := by
  refine ⟨rfl, ?_, rfl, rfl⟩
  simp [showsNoAlertsMessage, fetchFailure]

/-- Lemma: every panel operation keeps the unread count non-negative. -/
theorem step_unreadCount_nonneg (s : PanelState) (op : PanelOp)
    (h : 0 ≤ s.unreadCount) : 0 ≤ (step s op).unreadCount := by
  cases op with
  | fetchOk results => exact Int.natCast_nonneg _
  | fetchErr => exact h
  | markRead i =>
    have hstep : step s (PanelOp.markRead i) = markAsRead s i := rfl
    rw [hstep, markAsRead]
    by_cases hc : s.readAlerts.contains i = true
    · rw [if_pos hc]
      exact h
    · rw [if_neg hc]
      exact le_max_left 0 _

/-- C9: starting from any state with a non-negative unread count, every
sequence of operations (recomputation of the count on fetch, and the
clamped decrement of mark-read) keeps the displayed unread count
non-negative. -/
theorem unread_count_nonneg (s : PanelState) (ops : List PanelOp)
    (h : 0 ≤ s.unreadCount) : 0 ≤ (run s ops).unreadCount := by
  induction ops generalizing s with
  | nil => exact h
  | cons op rest ih =>
    exact ih (step s op) (step_unreadCount_nonneg s op h)

/-- Witness for C9: repeated mark-read clicks on ids outside the feed,
then a fetch and double reads, never drive the count negative. -/
theorem unread_count_nonneg_witness :
    0 ≤ initialState.unreadCount ∧
    0 ≤ (run initialState
      [PanelOp.markRead 5, PanelOp.markRead 7, PanelOp.fetchOk [sampleLow],
        PanelOp.markRead 2, PanelOp.markRead 2]).unreadCount :=
  ⟨by decide,
    unread_count_nonneg initialState
      [PanelOp.markRead 5, PanelOp.markRead 7, PanelOp.fetchOk [sampleLow],
        PanelOp.markRead 2, PanelOp.markRead 2] (by decide)⟩

/-- C2: evaluation of the risk classifier at the disputed and boundary
inputs.  A present risk score of 0 is classified "Unknown" (the
missing-data branch, because 0 is falsy in JavaScript) rather than the
low level the spec's "else low" contract requires, while the boundary
values 8, 6 and 4 do round toward the higher severity and a score
strictly between 0 and 4 is Low. -/
theorem risk_zero_classified_unknown :
    getRiskLevel (some 0) = "Unknown" ∧ getRiskColor (some 0) = "text-gray-500" ∧
    getRiskLevel none = "Unknown" ∧
    getRiskLevel (some 8) = "Very High" ∧ getRiskLevel (some 6) = "High" ∧
    getRiskLevel (some 4) = "Moderate" ∧ getRiskLevel (some 2) = "Low" := by
  decide

/-- Lemma: for small positive angles the sine is squeezed between
x * 0.999999 and x. -/
theorem sin_near_self (x : ℝ) (h0 : 0 < x) (h1 : x ≤ 0.001) :
    x * 0.999999 < Real.sin x ∧ Real.sin x < x := by
  have hc := Real.sin_gt_sub_cube h0 (by linarith)
  have hcube : x ^ 3 ≤ x * 0.000001 := by
    nlinarith [mul_nonneg (mul_nonneg h0.le (by linarith : (0:ℝ) ≤ 0.001 - x))
      (by linarith : (0:ℝ) ≤ x + 0.001)]
  exact ⟨by nlinarith, Real.sin_lt h0⟩

/-- Lemma: the arcsine dominates its argument on the unit interval. -/
theorem arcsin_ge_self (x : ℝ) (h0 : 0 ≤ x) (h1 : x ≤ 1) : x ≤ Real.arcsin x := by
  rcases eq_or_lt_of_le h0 with h | h
  · rw [← h]
    simp [Real.arcsin_zero]
  · have hpos : 0 < Real.arcsin x := Real.arcsin_pos.mpr h
    have hs : Real.sin (Real.arcsin x) = x := Real.sin_arcsin (by linarith) h1
    have hlt := Real.sin_lt hpos
    rw [hs] at hlt
    linarith

/-- Lemma: an upper bound for the arcsine via the tangent inequality. -/
theorem arcsin_le_div (x : ℝ) (h0 : 0 ≤ x) (h1 : x ≤ 1/2) :
    Real.arcsin x ≤ x / (1 - x ^ 2) := by
  rcases eq_or_lt_of_le h0 with h | h
  · rw [← h]
    simp [Real.arcsin_zero]
  · have hx1 : x < 1 := by linarith
    have hy0 : 0 < Real.arcsin x := Real.arcsin_pos.mpr h
    have hy2 : Real.arcsin x < Real.pi / 2 := Real.arcsin_lt_pi_div_two.mpr hx1
    have htan := Real.lt_tan hy0 hy2
    rw [Real.tan_arcsin] at htan
    have hx2 : (0:ℝ) < 1 - x ^ 2 := by nlinarith
    have hsq : 1 - x ^ 2 ≤ Real.sqrt (1 - x ^ 2) :=
      (Real.le_sqrt hx2.le hx2.le).mpr (by nlinarith)
    have hsqrt_pos : 0 < Real.sqrt (1 - x ^ 2) := Real.sqrt_pos.mpr hx2
    have hdiv : x / Real.sqrt (1 - x ^ 2) ≤ x / (1 - x ^ 2) := by
      rw [div_le_div_iff₀ hsqrt_pos hx2]
      nlinarith [mul_le_mul_of_nonneg_left hsq h.le]
    linarith

set_option maxHeartbeats 1000000 in
/-- Lemma: rational interval bounds for the haversine intermediate value a
at the spec's scenario coordinates, derived from the sine and cosine
bounds and the numeric bounds on pi. -/
theorem haversine_a_bounds :
    0.000000038 < Real.sin (Real.pi/36000) * Real.sin (Real.pi/36000) +
      Real.cos (13*Real.pi/1800) * Real.cos (129*Real.pi/18000) *
      Real.sin (Real.pi/18000) * Real.sin (Real.pi/18000) ∧
    Real.sin (Real.pi/36000) * Real.sin (Real.pi/36000) +
      Real.cos (13*Real.pi/1800) * Real.cos (129*Real.pi/18000) *
      Real.sin (Real.pi/18000) * Real.sin (Real.pi/18000) < 0.0000000381 := by
  have hπl := Real.pi_gt_d6
  have hπu := Real.pi_lt_d6
  have hx1l : (0.000087266:ℝ) < Real.pi/36000 := by linarith
  have hx1u : Real.pi/36000 < 0.000087267 := by linarith
  have hx2l : (0.000174532:ℝ) < Real.pi/18000 := by linarith
  have hx2u : Real.pi/18000 < 0.000174533 := by linarith
  have hφ1l : (0.0226892:ℝ) < 13*Real.pi/1800 := by linarith
  have hφ1u : 13*Real.pi/1800 < 0.0226893 := by linarith
  have hφ2l : (0.0225147:ℝ) < 129*Real.pi/18000 := by linarith
  have hφ2u : 129*Real.pi/18000 < 0.0225148 := by linarith
  have hs1 := sin_near_self (Real.pi/36000) (by linarith) (by linarith)
  have hs2 := sin_near_self (Real.pi/18000) (by linarith) (by linarith)
  have hS1l : (0.0000872659:ℝ) < Real.sin (Real.pi/36000) := by linarith [hs1.1]
  have hS1u : Real.sin (Real.pi/36000) < 0.000087267 := by linarith [hs1.2]
  have hS2l : (0.0001745318:ℝ) < Real.sin (Real.pi/18000) := by linarith [hs2.1]
  have hS2u : Real.sin (Real.pi/18000) < 0.000174533 := by linarith [hs2.2]
  have hC1l : (0.9997425:ℝ) < Real.cos (13*Real.pi/1800) := by
    have hb := Real.one_sub_sq_div_two_lt_cos (x := 13*Real.pi/1800) (by positivity)
    have hsq : (13*Real.pi/1800)^2 < 0.0226893^2 := by
      nlinarith [mul_pos (sub_pos.mpr hφ1u)
        (by linarith : (0:ℝ) < 13*Real.pi/1800 + 0.0226893)]
    nlinarith [hb, hsq]
  have hC2l : (0.9997465:ℝ) < Real.cos (129*Real.pi/18000) := by
    have hb := Real.one_sub_sq_div_two_lt_cos (x := 129*Real.pi/18000) (by positivity)
    have hsq : (129*Real.pi/18000)^2 < 0.0225148^2 := by
      nlinarith [mul_pos (sub_pos.mpr hφ2u)
        (by linarith : (0:ℝ) < 129*Real.pi/18000 + 0.0225148)]
    nlinarith [hb, hsq]
  have hC1u := Real.cos_le_one (13*Real.pi/1800)
  have hC2u := Real.cos_le_one (129*Real.pi/18000)
  have hS1sql : (0.0000000076153:ℝ) < Real.sin (Real.pi/36000) * Real.sin (Real.pi/36000) := by
    nlinarith [mul_pos (sub_pos.mpr hS1l)
      (by linarith : (0:ℝ) < Real.sin (Real.pi/36000) + 0.0000872659)]
  have hS1squ : Real.sin (Real.pi/36000) * Real.sin (Real.pi/36000) < 0.0000000076156 := by
    nlinarith [mul_pos (sub_pos.mpr hS1u)
      (by linarith : (0:ℝ) < Real.sin (Real.pi/36000) + 0.000087267)]
  have hS2sql : (0.0000000304613:ℝ) < Real.sin (Real.pi/18000) * Real.sin (Real.pi/18000) := by
    nlinarith [mul_pos (sub_pos.mpr hS2l)
      (by linarith : (0:ℝ) < Real.sin (Real.pi/18000) + 0.0001745318)]
  have hS2squ : Real.sin (Real.pi/18000) * Real.sin (Real.pi/18000) < 0.0000000304618 := by
    nlinarith [mul_pos (sub_pos.mpr hS2u)
      (by linarith : (0:ℝ) < Real.sin (Real.pi/18000) + 0.000174533)]
  have hCCl : (0.999489:ℝ) < Real.cos (13*Real.pi/1800) * Real.cos (129*Real.pi/18000) := by
    nlinarith [mul_pos (sub_pos.mpr hC1l) (sub_pos.mpr hC2l), hC1l, hC2l]
  have hCCu : Real.cos (13*Real.pi/1800) * Real.cos (129*Real.pi/18000) ≤ 1 := by
    nlinarith [mul_nonneg (sub_nonneg.mpr hC1u)
      (by linarith : (0:ℝ) ≤ Real.cos (129*Real.pi/18000)), hC2u]
  have htl : (0.0000000304457:ℝ) < Real.cos (13*Real.pi/1800) * Real.cos (129*Real.pi/18000) *
      Real.sin (Real.pi/18000) * Real.sin (Real.pi/18000) := by
    nlinarith [mul_pos (sub_pos.mpr hCCl) (sub_pos.mpr hS2sql), hCCl, hS2sql]
  have htu : Real.cos (13*Real.pi/1800) * Real.cos (129*Real.pi/18000) *
      Real.sin (Real.pi/18000) * Real.sin (Real.pi/18000) < 0.0000000304618 := by
    nlinarith [mul_nonneg (sub_nonneg.mpr hCCu)
      (by linarith : (0:ℝ) ≤ Real.sin (Real.pi/18000) * Real.sin (Real.pi/18000)),
      hS2squ, hCCl]
  constructor
  · linarith [hS1sql, htl]
  · linarith [hS1squ, htu]

/-- Lemma: at the spec's scenario coordinates the embedded haversine
computation reduces to 12742 times the arcsine of the square root of the
intermediate value a. -/
theorem feedDistance_eq :
    calculateDistance (-1.30) 36.80 (-1.29) 36.82 =
      12742 * Real.arcsin (Real.sqrt
        (Real.sin (Real.pi/36000) * Real.sin (Real.pi/36000) +
         Real.cos (13*Real.pi/1800) * Real.cos (129*Real.pi/18000) *
         Real.sin (Real.pi/18000) * Real.sin (Real.pi/18000))) := by
  have hA := haversine_a_bounds
  simp only [calculateDistance]
  have e1 : ((-1.29:ℝ) - -1.30) * Real.pi / 180 / 2 = Real.pi/36000 := by ring
  have e2 : ((36.82:ℝ) - 36.80) * Real.pi / 180 / 2 = Real.pi/18000 := by ring
  have e3 : Real.cos ((-1.30:ℝ) * Real.pi / 180) = Real.cos (13*Real.pi/1800) := by
    rw [show ((-1.30:ℝ) * Real.pi / 180) = -(13*Real.pi/1800) from by ring, Real.cos_neg]
  have e4 : Real.cos ((-1.29:ℝ) * Real.pi / 180) = Real.cos (129*Real.pi/18000) := by
    rw [show ((-1.29:ℝ) * Real.pi / 180) = -(129*Real.pi/18000) from by ring, Real.cos_neg]
  rw [e1, e2, e3, e4]
  set A := Real.sin (Real.pi/36000) * Real.sin (Real.pi/36000) +
      Real.cos (13*Real.pi/1800) * Real.cos (129*Real.pi/18000) *
      Real.sin (Real.pi/18000) * Real.sin (Real.pi/18000) with hAdef
  clear_value A
  have hA0 : (0:ℝ) ≤ A := by linarith [hA.1]
  have h1A : (0:ℝ) < 1 - A := by linarith [hA.2]
  rw [atan2, if_pos (Real.sqrt_pos.mpr h1A)]
  have hs : Real.sqrt (1 - A) = Real.sqrt (1 - Real.sqrt A ^ 2) := by
    rw [Real.sq_sqrt hA0]
  rw [hs]
  have hmem : Real.sqrt A ∈ Set.Ioo (-1 : ℝ) 1 := by
    constructor
    · have := Real.sqrt_nonneg A
      linarith
    · have h1 : Real.sqrt A < Real.sqrt 1 := Real.sqrt_lt_sqrt hA0 (by linarith)
      rwa [Real.sqrt_one] at h1
  rw [← Real.arcsin_eq_arctan hmem]
  ring

/-- Lemma: the haversine distance at the spec's scenario coordinates lies
strictly between 2.4 km and 2.5 km. -/
theorem feedDistance_bounds :
    2.4 < calculateDistance (-1.30) 36.80 (-1.29) 36.82 ∧
    calculateDistance (-1.30) 36.80 (-1.29) 36.82 < 2.5 := by
  have hA := haversine_a_bounds
  rw [feedDistance_eq]
  set A := Real.sin (Real.pi/36000) * Real.sin (Real.pi/36000) +
      Real.cos (13*Real.pi/1800) * Real.cos (129*Real.pi/18000) *
      Real.sin (Real.pi/18000) * Real.sin (Real.pi/18000) with hAdef
  clear_value A
  have hA0 : (0:ℝ) ≤ A := by linarith [hA.1]
  have hsl : (0.00019493:ℝ) ≤ Real.sqrt A := by
    rw [Real.le_sqrt (by norm_num) hA0]
    nlinarith [hA.1]
  have hsu : Real.sqrt A ≤ 0.0001952 := by
    rw [Real.sqrt_le_left (by norm_num)]
    nlinarith [hA.2]
  have hs1 : Real.sqrt A ≤ 1 := le_trans hsu (by norm_num)
  have harcl : (0.00019493:ℝ) ≤ Real.arcsin (Real.sqrt A) :=
    le_trans hsl (arcsin_ge_self _ (Real.sqrt_nonneg A) hs1)
  have harcu : Real.arcsin (Real.sqrt A) ≤ 0.00019521 := by
    have h2 := arcsin_le_div (Real.sqrt A) (Real.sqrt_nonneg A) (le_trans hsu (by norm_num))
    rw [Real.sq_sqrt hA0] at h2
    have hden : (0:ℝ) < 1 - A := by linarith [hA.2]
    have h3 : Real.sqrt A / (1 - A) ≤ 0.00019521 := by
      rw [div_le_iff₀ hden]
      nlinarith [hsu, hA.2, hA.1]
    linarith
  constructor
  · linarith [harcl]
  · linarith [harcu]

/-- C8 (counterexample): the distance the code computes for the spec's
scenario — subscriber (-1.30, 36.80), source point (-1.29, 36.82) — is
strictly greater than 2.4 km, so it is not approximately 2.3 km (to the
one-decimal precision the component displays, a value of about 2.3 would
have to lie in [2.25, 2.35)). -/
theorem feedDistance_not_approx_2_3 :
    ¬(2.25 ≤ calculateDistance (-1.30) 36.80 (-1.29) 36.82 ∧
      calculateDistance (-1.30) 36.80 (-1.29) 36.82 < 2.35) := by
  intro h
  have hb := feedDistance_bounds
  linarith [h.2, hb.1]

/-- C8 (amended): calculateDistance implements the haversine great-circle
formula with Earth radius 6371 km, and at the spec's scenario coordinates
it yields approximately 2.5 km (strictly between 2.4 and 2.5), which is
within the 10 km relevance radius, so the subscriber is included in the
relevant set of the spec-modelled geo-relevance rule. -/
theorem feedDistance_approx_2_5_within_radius :
    2.4 < calculateDistance (-1.30) 36.80 (-1.29) 36.82 ∧
    calculateDistance (-1.30) 36.80 (-1.29) 36.82 < 2.5 ∧
    geoRelevantByRadius (calculateDistance (-1.30) 36.80 (-1.29) 36.82) 10 := by
  have hb := feedDistance_bounds
  refine ⟨hb.1, hb.2, ?_⟩
  unfold geoRelevantByRadius
  linarith [hb.2]

end DroughtMonitery
